import Mathlib

/-!
Shallow embedding of src/gcp_video_intelligence.py.

The script has one pure core, the flattening loop inside
process_video_in_gcs (lines 108 to 124), plus two small fallible
functions that the claims mention: extract_url_title (lines 36 to 45)
and bg_streaming_insert (lines 134 to 145).

Modelling decisions, each anchored to a source line:
* A protobuf Duration field .seconds is an arbitrary integer, so
  time offsets are Int.
* Python computes the minutes as int(start_time_offset / 60)
  (line 119): true division followed by truncation toward zero, which
  on integers is Int.tdiv.  The seconds remainder uses the Python
  percent operator (line 120), whose result has the sign of the
  divisor; for the positive divisor 60 that is Int.emod, the meaning
  of the percent operator on Int in Lean.
* confidence is carried through untouched by the script (lines 122
  and 124), so its carrier type only needs decidable equality; it is
  modelled as Rat.
* datetime.datetime.now() is nondeterministic wall clock; the
  embedding passes an ambient clock as a function from the number of
  now() calls already made to the DateTime returned by the next call.
  The loop at line 109 calls now() exactly once per shot (line 110),
  so the k-th shot reads clock k.
-/

/-- Wall-clock instant as returned by datetime.datetime.now(),
with the fields that the format %Y%m%d_%H%M%S_%f reads. -/
structure DateTime where
  year : Nat
  month : Nat
  day : Nat
  hour : Nat
  minute : Nat
  second : Nat
  microsecond : Nat
deriving DecidableEq, Repr

/-- Left-pad the decimal digits of n with zeros to width w, as the
zero-padded strftime conversions do. -/
def padNat (w n : Nat) : String :=
  let s := toString n
  String.mk (List.replicate (w - s.length) '0') ++ s

/-- strftime with format %Y%m%d_%H%M%S_%f (line 110): four-digit
year, two-digit month, day, hour, minute, second, six-digit
microseconds, with two underscores. -/
def strftime_datetimeid (t : DateTime) : String :=
  padNat 4 t.year ++ padNat 2 t.month ++ padNat 2 t.day ++ "_" ++
  padNat 2 t.hour ++ padNat 2 t.minute ++ padNat 2 t.second ++ "_" ++
  padNat 6 t.microsecond

/-- An entity message: only its description field is read
(lines 111 and 113). -/
structure Entity where
  description : String
deriving DecidableEq, Repr

/-- The segment.segment time range: start_time_offset.seconds and
end_time_offset.seconds (lines 118 and 121). -/
structure TimeSegment where
  start_time_offset : Int
  end_time_offset : Int
deriving DecidableEq, Repr

/-- A label segment: a time range plus a confidence (line 122). -/
structure LabelSegment where
  segment : TimeSegment
  confidence : Rat
deriving DecidableEq, Repr

/-- One element of result.annotation_results[0].shot_label_annotations
(line 98): an entity, a possibly empty list of category entities, and
a list of segments. -/
structure ShotAnnotation where
  entity : Entity
  category_entities : List Entity
  segments : List LabelSegment
deriving DecidableEq, Repr

/-- The 9-tuple appended to shot_records at line 124, in source
order: (datetimeid, title, video_url_at_time, gcs_filepath, entity,
category, start_time_offset, end_time_offset, confidence). -/
structure ShotRecord where
  datetimeid : String
  title : String
  video_url_at_time : String
  gcs_filepath : String
  entity : String
  category : String
  start_time_offset : Int
  end_time_offset : Int
  confidence : Rat
deriving DecidableEq, Repr

/-- Category resolution (lines 112 to 115): Python reads
shot.category_entities[0].description under try, and the bare except
turns the IndexError on an empty list into the empty string. -/
def categoryOfShot (shot : ShotAnnotation) : String :=
  match shot.category_entities with
  | [] => ""
  | e :: _ => e.description

/-- The inner per-segment loop body (lines 117 to 124) for one shot,
with the datetimeid already fixed by the enclosing per-shot iteration
(line 110).  Emits one ShotRecord per segment, in order. -/
def flattenShot (datetimeid title video_url gcs_filepath : String)
    (shot : ShotAnnotation) : List ShotRecord :=
  let category := categoryOfShot shot
  shot.segments.map (fun seg =>
    let start_time_offset := seg.segment.start_time_offset
    let start_time_offset_m := Int.tdiv start_time_offset 60
    let start_time_offset_s := start_time_offset % 60
    { datetimeid := datetimeid
      title := title
      video_url_at_time :=
        video_url ++ "&t=" ++ toString start_time_offset_m ++ "m" ++
          toString start_time_offset_s ++ "s"
      gcs_filepath := gcs_filepath
      entity := shot.entity.description
      category := category
      start_time_offset := start_time_offset
      end_time_offset := seg.segment.end_time_offset
      confidence := seg.confidence })

/-- The outer per-shot loop (lines 108 to 124), with k counting the
datetime.datetime.now() calls already made: shot number k samples
clock k for its datetimeid (line 110) and appends its flattened
segment records. -/
def processShotsAux (clock : Nat → DateTime)
    (title video_url gcs_filepath : String) :
    Nat → List ShotAnnotation → List ShotRecord
  | _, [] => []
  | k, shot :: rest =>
      flattenShot (strftime_datetimeid (clock k)) title video_url
          gcs_filepath shot ++
        processShotsAux clock title video_url gcs_filepath (k + 1) rest

/-- The pure core of process_video_in_gcs (lines 108 to 130): given
the annotation result already fetched from the service, build the
shot_records list that the function returns.  Parameter order of the
strings follows the Python signature at line 85. -/
def process_video_in_gcs (clock : Nat → DateTime)
    (gcs_filepath video_url title : String)
    (shots : List ShotAnnotation) : List ShotRecord :=
  processShotsAux clock title video_url gcs_filepath 0 shots

/-- Names bound at module top level by the import statements at
lines 27 to 32: storage, bigquery, videointelligence (line 27),
YouTube (line 28), argparse (line 29), datetime and time (line 30),
requests (line 31), BeautifulSoup (line 32).  No import binds the
name sys. -/
def moduleImportedNames : List String :=
  ["storage", "bigquery", "videointelligence", "YouTube", "argparse",
   "datetime", "time", "requests", "BeautifulSoup"]

/-- How a Python run of the except branch can terminate: a clean
SystemExit from sys.exit(), or a NameError when the name sys is not
bound. -/
inductive PyError where
  | SystemExit
  | NameError
deriving DecidableEq, Repr

/-- Outcome of the try body of extract_url_title for a given URL:
either the title string it computes, or an exception somewhere in
requests.get / BeautifulSoup / soup.find (line 38 to 40). -/
inductive FetchOutcome where
  | ok (title : String)
  | exn
deriving DecidableEq, Repr

/-- extract_url_title (lines 36 to 45).  First component: the lines
it prints.  Second: either the returned title or the exception that
escapes.  On a try-body exception the handler prints and evaluates
sys.exit(); evaluating the name sys succeeds only if some import
bound it, else Python raises NameError before any exit happens. -/
def extract_url_title (outcome : FetchOutcome) :
    List String × Except PyError String :=
  match outcome with
  | .ok title =>
      (["[ INFO ] Successfully extracted Title: " ++ title],
       Except.ok title)
  | .exn =>
      (["[ ERROR ] Issue processing URL. Check the URL and/or internet connection."],
       if "sys" ∈ moduleImportedNames then Except.error PyError.SystemExit
       else Except.error PyError.NameError)

/-- bg_streaming_insert (lines 134 to 145).  The BigQuery client call
client.insert_rows(table, rows_to_insert) is external; its returned
error list is passed in as insertErrors.  First component: the lines
the function prints (line 139 always; line 145 only when the error
list is empty).  Second component: the Python return value — the
function has no return statement, so it is always None. -/
def bg_streaming_insert (insertErrors : List String)
    (rows_to_insert : List ShotRecord)
    (bq_dataset_id bq_table_id : String) :
    List String × Option Nat :=
  (["[ INFO ] Inserting records in BigQuery"] ++
     (if insertErrors = [] then
        ["[ INFO ] Complete. No errors on Big Query insert"]
      else []),
   none)

/-- Every field of a ShotRecord except datetimeid, for comparing
runs that differ only in their wall clock. -/
def rowSansId (r : ShotRecord) :
    String × String × String × String × String × Int × Int × Rat :=
  (r.title, r.video_url_at_time, r.gcs_filepath, r.entity, r.category,
   r.start_time_offset, r.end_time_offset, r.confidence)

/-- Modelled from the spec wording of per-shot identifier generation:
starting at call count k, each shot contributes one freshly sampled
identifier, shared by (replicated over) all of its segments.  Used to
compare the code against the amended record_id placement claim. -/
def perShotIds (clock : Nat → DateTime) :
    Nat → List ShotAnnotation → List String
  | _, [] => []
  | k, shot :: rest =>
      List.replicate shot.segments.length
          (strftime_datetimeid (clock k)) ++
        perShotIds clock (k + 1) rest

/-- A concrete clock for witnesses: successive now() calls differ in
the microsecond field. -/
def clockW : Nat → DateTime :=
  fun k => ⟨2026, 10, 12, 3, 4, 5, k⟩

/-- Segment (0, 5, 0.9) of the spec scenario. -/
def segA : LabelSegment := ⟨⟨0, 5⟩, 0.9⟩

/-- Segment (10, 12, 0.75) of the spec scenario. -/
def segB : LabelSegment := ⟨⟨10, 12⟩, 0.75⟩

/-- The spec scenario shot: entity dog, category animal, two
segments. -/
def shotDog : ShotAnnotation := ⟨⟨"dog"⟩, [⟨"animal"⟩], [segA, segB]⟩

/-- A shot with no category entity. -/
def shotNoCat : ShotAnnotation := ⟨⟨"cat"⟩, [], [segA]⟩

/-- A shot with no segments. -/
def shotNoSegs : ShotAnnotation := ⟨⟨"empty"⟩, [⟨"c"⟩], []⟩

/-- A segment whose start offset is the malformed value -5. -/
def segNeg : LabelSegment := ⟨⟨-5, 2⟩, 0.5⟩

/-- A shot holding only the malformed segment. -/
def shotNeg : ShotAnnotation := ⟨⟨"neg"⟩, [], [segNeg]⟩

/-- A concrete video URL for witnesses. -/
def urlW : String := "https://www.youtube.com/watch?v=imm6OR605UI"

/-- Length of the records produced by one pass of the outer loop. -/
lemma length_processShotsAux (clock : Nat → DateTime)
    (t v g : String) (k : Nat) (shots : List ShotAnnotation) :
    (processShotsAux clock t v g k shots).length
      = (shots.map fun s => s.segments.length).sum := by
  induction shots generalizing k with
  | nil => simp [processShotsAux]
  | cons shot rest ih =>
      simp [processShotsAux, flattenShot, ih]

/-- Every record emitted by the outer loop comes from flattening some
shot of the input, under some datetimeid string. -/
lemma mem_processShotsAux {clock : Nat → DateTime} {t v g : String}
    {k : Nat} {shots : List ShotAnnotation} {r : ShotRecord}
    (h : r ∈ processShotsAux clock t v g k shots) :
    ∃ d shot, shot ∈ shots ∧ r ∈ flattenShot d t v g shot := by
  induction shots generalizing k with
  | nil => simp [processShotsAux] at h
  | cons shot rest ih =>
      rw [processShotsAux, List.mem_append] at h
      rcases h with h | h
      · exact ⟨_, shot, List.mem_cons_self _ _, h⟩
      · obtain ⟨d, s, hs, hr⟩ := ih h
        exact ⟨d, s, List.mem_cons_of_mem _ hs, hr⟩

/-- Every record emitted for one shot is the literal record built at
line 124 from one of the segments of that shot. -/
lemma mem_flattenShot {d t v g : String} {shot : ShotAnnotation}
    {r : ShotRecord} (h : r ∈ flattenShot d t v g shot) :
    ∃ seg ∈ shot.segments,
      r = { datetimeid := d
            title := t
            video_url_at_time :=
              v ++ "&t=" ++ toString (Int.tdiv seg.segment.start_time_offset 60) ++
                "m" ++ toString (seg.segment.start_time_offset % 60) ++ "s"
            gcs_filepath := g
            entity := shot.entity.description
            category := categoryOfShot shot
            start_time_offset := seg.segment.start_time_offset
            end_time_offset := seg.segment.end_time_offset
            confidence := seg.confidence } := by
  simp only [flattenShot, List.mem_map] at h
  obtain ⟨seg, hseg, rfl⟩ := h
  exact ⟨seg, hseg, rfl⟩

/-- C1: the flattening loop emits exactly one record per
(shot, segment) pair, so the output length is the sum over shots of
their segment counts, and an input whose total segment count is zero
(in particular zero shots, or every shot with zero segments) yields
the empty list — the function is total, so no error is possible. -/
theorem C1_row_count (clock : Nat → DateTime) (g v t : String)
    (shots : List ShotAnnotation) :
    (process_video_in_gcs clock g v t shots).length
        = (shots.map fun s => s.segments.length).sum ∧
      ((shots.map fun s => s.segments.length).sum = 0 →
        process_video_in_gcs clock g v t shots = []) := by
  refine ⟨length_processShotsAux clock t v g 0 shots, fun h0 => ?_⟩
  have := length_processShotsAux clock t v g 0 shots
  rw [h0] at this
  exact List.length_eq_zero.mp this

/-- Witness for C1 at a concrete input: a single shot with zero
segments produces the empty output. -/
theorem C1_row_count_witness :
    process_video_in_gcs clockW "g" "v" "t" [shotNoSegs] = [] :=
  (C1_row_count clockW "g" "v" "t" [shotNoSegs]).2 (by decide)

/-- C2: a row whose start offset s is nonnegative carries the deep
link video_url with the suffix built from s div 60 minutes and
s mod 60 seconds, computed as Nat (nonnegative) division and modulo
on the offset. -/
theorem C2_url_deep_link (clock : Nat → DateTime) (g v t : String)
    (shots : List ShotAnnotation) (r : ShotRecord)
    (hr : r ∈ process_video_in_gcs clock g v t shots)
    (hs : 0 ≤ r.start_time_offset) :
    r.video_url_at_time =
      v ++ "&t=" ++ toString (r.start_time_offset.toNat / 60) ++ "m" ++
        toString (r.start_time_offset.toNat % 60) ++ "s" := by
  obtain ⟨d, shot, _, hflat⟩ := mem_processShotsAux hr
  obtain ⟨seg, _, rfl⟩ := mem_flattenShot hflat
  simp only at hs ⊢
  obtain ⟨n, hn⟩ := Int.eq_ofNat_of_zero_le hs
  rw [hn]
  rfl

/-- A row of the spec scenario output, used to evaluate C2 at a
concrete input. -/
def rowB : ShotRecord :=
  { datetimeid := strftime_datetimeid (clockW 0)
    title := "T"
    video_url_at_time := urlW ++ "&t=0m10s"
    gcs_filepath := "gs"
    entity := "dog"
    category := "animal"
    start_time_offset := 10
    end_time_offset := 12
    confidence := 0.75 }

/-- The first row of the spec scenario output. -/
def rowA : ShotRecord :=
  { datetimeid := strftime_datetimeid (clockW 0)
    title := "T"
    video_url_at_time := urlW ++ "&t=0m0s"
    gcs_filepath := "gs"
    entity := "dog"
    category := "animal"
    start_time_offset := 0
    end_time_offset := 5
    confidence := 0.9 }

/-- The spec scenario input evaluates to exactly the two fixture
rows. -/
lemma scenario_rows :
    process_video_in_gcs clockW "gs" urlW "T" [shotDog] = [rowA, rowB] := rfl

/-- Witness for C2: the second scenario row, with start offset 10,
carries the suffix built from 10 div 60 and 10 mod 60. -/
theorem C2_url_deep_link_witness :
    rowB.video_url_at_time =
      urlW ++ "&t=" ++ toString (rowB.start_time_offset.toNat / 60) ++ "m" ++
        toString (rowB.start_time_offset.toNat % 60) ++ "s" :=
  C2_url_deep_link clockW "gs" urlW "T" [shotDog] rowB
    (scenario_rows ▸ List.mem_cons_of_mem _ (List.mem_cons_self _ _))
    (by decide)

/-- Flattening one shot stamps every segment record with the single
datetimeid fixed before the segment loop. -/
lemma map_datetimeid_flattenShot (d t v g : String)
    (shot : ShotAnnotation) :
    (flattenShot d t v g shot).map (·.datetimeid)
      = List.replicate shot.segments.length d := by
  simp only [flattenShot, List.map_map]
  exact List.map_const' shot.segments d

/-- The datetimeids of the records produced from call count k onward
are exactly one fresh sample per shot, replicated over the segments
of that shot. -/
lemma map_datetimeid_processShotsAux (clock : Nat → DateTime)
    (t v g : String) (k : Nat) (shots : List ShotAnnotation) :
    (processShotsAux clock t v g k shots).map (·.datetimeid)
      = perShotIds clock k shots := by
  induction shots generalizing k with
  | nil => simp [processShotsAux, perShotIds]
  | cons shot rest ih =>
      simp [processShotsAux, perShotIds, map_datetimeid_flattenShot, ih]

/-- C3 counterexample: one shot with two segments, under a clock
whose successive samples format to distinct strings.  Independent
per-segment generation would give the two rows distinct record_ids;
the code gives both rows the sample taken at the shot, so they are
equal, refuting the claim at this input. -/
theorem C3_counterexample :
    ((process_video_in_gcs clockW "g" urlW "t" [shotDog]).map (·.datetimeid)
        = [strftime_datetimeid (clockW 0), strftime_datetimeid (clockW 0)])
      ∧ strftime_datetimeid (clockW 0) ≠ strftime_datetimeid (clockW 1) := by
  constructor
  · rfl
  · decide

/-- C3 amended: the record_id is generated from the wall clock,
formatted with %Y%m%d_%H%M%S_%f, once per shot — the generation step
sits inside the per-shot loop, before the per-segment loop — so all
segments of one shot share one record_id, while distinct shots get
independently sampled record_ids (the k-th shot reads the k-th clock
sample). -/
theorem C3_record_id_per_shot (clock : Nat → DateTime)
    (g v t : String) (shots : List ShotAnnotation) :
    (process_video_in_gcs clock g v t shots).map (·.datetimeid)
      = perShotIds clock 0 shots :=
  map_datetimeid_processShotsAux clock t v g 0 shots

/-- C4 counterexample: the input whose only segment starts at -5 is
not rejected — the transform is a total function and emits exactly
one row, whose deep link reads t=0m55s (Python truncating division
gives minute 0, Python modulo gives remainder 55). -/
theorem C4_counterexample :
    (process_video_in_gcs clockW "g" urlW "t" [shotNeg]).length = 1 ∧
      (process_video_in_gcs clockW "g" urlW "t" [shotNeg]).map
          (·.video_url_at_time)
        = [urlW ++ "&t=0m55s"] := by
  constructor
  · rfl
  · rfl

/-- C4 amended: the transform never validates offsets; every emitted
row, whatever the sign of its start offset, carries the deep link
built with truncating division (int(s / 60)) and Python modulo
(s % 60, nonnegative since the divisor 60 is positive). -/
theorem C4_no_negative_guard (clock : Nat → DateTime) (g v t : String)
    (shots : List ShotAnnotation) (r : ShotRecord)
    (hr : r ∈ process_video_in_gcs clock g v t shots) :
    r.video_url_at_time =
      v ++ "&t=" ++ toString (Int.tdiv r.start_time_offset 60) ++ "m" ++
        toString (r.start_time_offset % 60) ++ "s" := by
  obtain ⟨d, shot, _, hflat⟩ := mem_processShotsAux hr
  obtain ⟨seg, _, rfl⟩ := mem_flattenShot hflat
  rfl

/-- The single row emitted for the malformed -5 segment. -/
def rowNeg : ShotRecord :=
  { datetimeid := strftime_datetimeid (clockW 0)
    title := "t"
    video_url_at_time := urlW ++ "&t=0m55s"
    gcs_filepath := "g"
    entity := "neg"
    category := ""
    start_time_offset := -5
    end_time_offset := 2
    confidence := 0.5 }

/-- The malformed-input scenario evaluates to exactly the fixture
row. -/
lemma scenario_neg :
    process_video_in_gcs clockW "g" urlW "t" [shotNeg] = [rowNeg] := rfl

/-- Witness for the amended C4 at the malformed input: the -5 row
carries minute int(-5 / 60) = 0 and remainder -5 % 60 = 55. -/
theorem C4_no_negative_guard_witness :
    rowNeg.video_url_at_time =
      urlW ++ "&t=" ++ toString (Int.tdiv rowNeg.start_time_offset 60) ++ "m" ++
        toString (rowNeg.start_time_offset % 60) ++ "s" :=
  C4_no_negative_guard clockW "g" urlW "t" [shotNeg] rowNeg
    (scenario_neg ▸ List.mem_cons_self _ _)

/-- Flattening one shot stamps every segment record with the
category resolved once before the segment loop. -/
lemma map_category_flattenShot (d t v g : String)
    (shot : ShotAnnotation) :
    (flattenShot d t v g shot).map (·.category)
      = List.replicate shot.segments.length (categoryOfShot shot) := by
  simp only [flattenShot, List.map_map]
  exact List.map_const' shot.segments (categoryOfShot shot)

/-- The categories of all emitted records, shot block by shot
block. -/
lemma map_category_processShotsAux (clock : Nat → DateTime)
    (t v g : String) (k : Nat) (shots : List ShotAnnotation) :
    (processShotsAux clock t v g k shots).map (·.category)
      = (shots.map fun shot =>
          List.replicate shot.segments.length (categoryOfShot shot)).flatten := by
  induction shots generalizing k with
  | nil => simp [processShotsAux]
  | cons shot rest ih =>
      simp [processShotsAux, map_category_flattenShot, ih]

/-- C5: a shot still contributes one row per segment whatever its
category entities (the transform cannot fail there), each of its rows
carries the resolved category, and the resolution yields the empty
string when the category entity list is empty and the first
description otherwise. -/
theorem C5_category_label (clock : Nat → DateTime) (g v t : String)
    (shots : List ShotAnnotation) :
    ((process_video_in_gcs clock g v t shots).map (·.category)
        = (shots.map fun shot =>
            List.replicate shot.segments.length (categoryOfShot shot)).flatten)
      ∧ (∀ shot : ShotAnnotation, shot.category_entities = [] →
          categoryOfShot shot = "")
      ∧ ∀ (shot : ShotAnnotation) (e : Entity) (es : List Entity),
          shot.category_entities = e :: es →
            categoryOfShot shot = e.description := by
  refine ⟨map_category_processShotsAux clock t v g 0 shots, ?_, ?_⟩
  · intro shot h
    simp [categoryOfShot, h]
  · intro shot e es h
    simp [categoryOfShot, h]

/-- Witness for C5: the category-free shot resolves to the empty
string and the dog shot resolves to the first category description,
so the spec scenario inputs evaluate both branches. -/
theorem C5_category_label_witness :
    categoryOfShot shotNoCat = "" ∧
      categoryOfShot shotDog = Entity.description ⟨"animal"⟩ :=
  ⟨(C5_category_label clockW "g" urlW "t" [shotNoCat]).2.1 shotNoCat rfl,
   (C5_category_label clockW "g" urlW "t" [shotDog]).2.2 shotDog
     ⟨"animal"⟩ [] rfl⟩

/-- Flattening one shot passes each segment confidence through. -/
lemma map_confidence_flattenShot (d t v g : String)
    (shot : ShotAnnotation) :
    (flattenShot d t v g shot).map (·.confidence)
      = shot.segments.map (·.confidence) := by
  simp only [flattenShot, List.map_map]
  rfl

/-- The confidences of all emitted records, shot block by shot
block. -/
lemma map_confidence_processShotsAux (clock : Nat → DateTime)
    (t v g : String) (k : Nat) (shots : List ShotAnnotation) :
    (processShotsAux clock t v g k shots).map (·.confidence)
      = (shots.map fun shot => shot.segments.map (·.confidence)).flatten := by
  induction shots generalizing k with
  | nil => simp [processShotsAux]
  | cons shot rest ih =>
      simp [processShotsAux, map_confidence_flattenShot, ih]

/-- C6: the confidence column of the output is exactly the
concatenation of the input segment confidences, shot by shot — the
transform applies no rounding, clamping, or any modification. -/
theorem C6_confidence_identity (clock : Nat → DateTime)
    (g v t : String) (shots : List ShotAnnotation) :
    (process_video_in_gcs clock g v t shots).map (·.confidence)
      = (shots.map fun shot => shot.segments.map (·.confidence)).flatten :=
  map_confidence_processShotsAux clock t v g 0 shots

/-- Flattening one shot gives the same records up to datetimeid,
whichever datetimeid string was sampled. -/
lemma sansId_flattenShot (d1 d2 t v g : String)
    (shot : ShotAnnotation) :
    (flattenShot d1 t v g shot).map rowSansId
      = (flattenShot d2 t v g shot).map rowSansId := by
  simp only [flattenShot, List.map_map]
  rfl

/-- Two passes of the outer loop under different clocks and call
counts agree on every field except datetimeid. -/
lemma sansId_processShotsAux (clock1 clock2 : Nat → DateTime)
    (t v g : String) (k1 k2 : Nat) (shots : List ShotAnnotation) :
    (processShotsAux clock1 t v g k1 shots).map rowSansId
      = (processShotsAux clock2 t v g k2 shots).map rowSansId := by
  induction shots generalizing k1 k2 with
  | nil => rfl
  | cons shot rest ih =>
      simp only [processShotsAux, List.map_append]
      rw [sansId_flattenShot (strftime_datetimeid (clock1 k1))
            (strftime_datetimeid (clock2 k2)) t v g shot,
          ih (k1 + 1) (k2 + 1)]

/-- C7: the transform is deterministic up to record_id — two runs on
the same input under any two wall clocks produce rows identical in
every field except datetimeid. -/
theorem C7_deterministic_sans_record_id (clock1 clock2 : Nat → DateTime)
    (g v t : String) (shots : List ShotAnnotation) :
    (process_video_in_gcs clock1 g v t shots).map rowSansId
      = (process_video_in_gcs clock2 g v t shots).map rowSansId :=
  sansId_processShotsAux clock1 clock2 t v g 0 0 shots

/-- C8: the spec scenario — one dog/animal shot with segments
(0, 5, 0.9) and (10, 12, 0.75) — yields exactly two rows; the first
has start 0, end 5 and deep link ending in t=0m0s, the second has
start 10 and deep link ending in t=0m10s. -/
theorem C8_scenario :
    (process_video_in_gcs clockW "gs" urlW "T" [shotDog]).length = 2 ∧
      (process_video_in_gcs clockW "gs" urlW "T" [shotDog]).map
          (fun r => (r.start_time_offset, r.end_time_offset))
        = [(0, 5), (10, 12)] ∧
      (process_video_in_gcs clockW "gs" urlW "T" [shotDog]).map
          (·.video_url_at_time)
        = [urlW ++ "&t=0m0s", urlW ++ "&t=0m10s"] := by
  refine ⟨rfl, ?_, rfl⟩
  decide

/-- C9 counterexample: when the BigQuery client reports one rejected
row, bg_streaming_insert still returns None — not the rejection
count 1 — so the caller cannot observe the partial failure from the
return value. -/
theorem C9_counterexample :
    (bg_streaming_insert ["row 0 rejected"] [] "ds" "tbl").2 = none ∧
      (bg_streaming_insert ["row 0 rejected"] [] "ds" "tbl").2
        ≠ some (["row 0 rejected"].length) := by
  constructor
  · rfl
  · intro h
    simp [bg_streaming_insert] at h

/-- C9 amended: bg_streaming_insert has no return statement, so it
returns None for every input; the only signal it produces is a
success line printed exactly when the client reported an empty error
list, so a nonzero rejection count is not observable by the
caller. -/
theorem C9_insert_returns_none (insertErrors : List String)
    (rows : List ShotRecord) (ds tbl : String) :
    (bg_streaming_insert insertErrors rows ds tbl).2 = none ∧
      ("[ INFO ] Complete. No errors on Big Query insert"
          ∈ (bg_streaming_insert insertErrors rows ds tbl).1
        ↔ insertErrors = []) := by
  refine ⟨rfl, ?_⟩
  by_cases h : insertErrors = [] <;> simp [bg_streaming_insert, h]

/-- C10: the except branch of extract_url_title raises NameError
rather than exiting cleanly, because sys.exit() is called while the
name sys is bound by no import of the module. -/
theorem C10_handler_name_error :
    (extract_url_title FetchOutcome.exn).2
        = Except.error PyError.NameError ∧
      "sys" ∉ moduleImportedNames := by
  refine ⟨rfl, ?_⟩
  decide
